import Mathlib

/-!
Shallow embedding of `Froststrap/mod-generator` (src/main.py and
src/platform.py) and verification of the frozen claims about it.

Python strings are modelled as Lean `String` / `List Char`.  The string
primitives the program uses (`str.strip`, `str.lstrip("#")`, `str.lower`,
`int(s, 16)`) are embedded below; whitespace and case handling follow the
ASCII fragment (the program only ever deals with ASCII option values and
path segments).
-/

namespace ModGen

/-- Whitespace characters stripped by Python `str.strip()` (ASCII fragment). -/
def isPySpace (c : Char) : Bool :=
  c = ' ' || c = '\t' || c = '\n' || c = '\r' || c = '\x0b' || c = '\x0c'

/-- Python `str.strip()` on a character list. -/
def pyStrip (l : List Char) : List Char :=
  ((l.dropWhile isPySpace).reverse.dropWhile isPySpace).reverse

/-- Python `str.lstrip("#")`: removes every leading `#`, not just one. -/
def lstripHash (l : List Char) : List Char := l.dropWhile (fun c => c = '#')

/-- Python `str.lower()` (ASCII fragment). -/
def strLower (s : String) : String := ⟨s.data.map Char.toLower⟩

/-- Python `str.strip()` on a `String`. -/
def strStrip (s : String) : String := ⟨pyStrip s.data⟩

/-- Value of a hexadecimal digit character, if it is one. -/
def hexDigitVal (c : Char) : Option Nat :=
  if '0' ≤ c ∧ c ≤ '9' then some (c.toNat - '0'.toNat)
  else if 'a' ≤ c ∧ c ≤ 'f' then some (c.toNat - 'a'.toNat + 10)
  else if 'A' ≤ c ∧ c ≤ 'F' then some (c.toNat - 'A'.toNat + 10)
  else none

/-- No two adjacent underscores (part of Python numeric-literal validity). -/
def noDoubleUS : List Char → Bool
  | a :: b :: rest => !(a = '_' && b = '_') && noDoubleUS (b :: rest)
  | _ => true

/-- Validity of the digit section of a Python base-16 numeric string:
nonempty, hex digits with single underscores strictly between digits. -/
def hexDigitsOk (l : List Char) : Bool :=
  !l.isEmpty && !(l.head? == some '_') && !(l.getLast? == some '_') &&
  noDoubleUS l && l.all (fun c => c = '_' || (hexDigitVal c).isSome)

/-- Value of a valid digit section (underscores ignored), big-endian. -/
def hexDigitsValue (l : List Char) : Nat :=
  (l.filter (fun c => c != '_')).foldl (fun a c => 16 * a + ((hexDigitVal c).getD 0)) 0

/-- Python `int(s, 16)`: strips whitespace, takes an optional sign, an
optional `0x`/`0X` prefix (with one optional underscore after it), then a
digit section.  Returns `none` where Python raises `ValueError`. -/
def pyIntHex (s : List Char) : Option Int :=
  let t0 := pyStrip s
  let sgn : Int :=
    match t0 with
    | '-' :: _ => -1
    | _ => 1
  let t1 :=
    match t0 with
    | '+' :: r => r
    | '-' :: r => r
    | _ => t0
  let t2 :=
    match t1 with
    | '0' :: c :: r =>
      if c = 'x' || c = 'X' then
        match r with
        | '_' :: r2 => r2
        | _ => r
      else '0' :: c :: r
    | _ => t1
  if hexDigitsOk t2 then some (sgn * (hexDigitsValue t2 : Int)) else none

/-- `hex_to_rgb` from src/main.py lines 31-44: strip whitespace, strip all
leading `#`, require exactly 6 remaining characters, then decode the three
2-character slices with `int(_, 16)`.  `none` models the raised
`ValueError` (for either the length check or a failed slice parse). -/
def hex_to_rgb (s : String) : Option (Int × Int × Int) :=
  let h := lstripHash (pyStrip s.data)
  if h.length = 6 then
    match pyIntHex (h.take 2), pyIntHex ((h.drop 2).take 2), pyIntHex (h.drop 4) with
    | some r, some g, some b => some (r, g, b)
    | _, _, _ => none
  else none

/-- The plain hexadecimal digit characters. -/
def hexChars : List Char := "0123456789abcdefABCDEF".data

/-- `BOOTSTRAPPERS` from src/main.py lines 22-28. -/
def BOOTSTRAPPERS : List String :=
  ["Bloxstrap", "Fishstrap", "Froststrap", "Luczystrap", "Lunastrap"]

/-- `canonicalize_bootstrapper` from src/main.py lines 47-59.
`none`/`some ""` model Python's falsy inputs (`None`, `""`); the result is
`Except.ok none` for "no selection", `Except.ok (some c)` for the first
canonical name whose lowercase form equals the stripped, lowercased input,
and `Except.error _` for the raised `ValueError`. -/
def canonicalize_bootstrapper (name : Option String) : Except String (Option String) :=
  match name with
  | none => Except.ok none
  | some n =>
    if n = "" then Except.ok none
    else
      match BOOTSTRAPPERS.find? (fun c => strLower c = strLower (strStrip n)) with
      | some c => Except.ok (some c)
      | none => Except.error ("Invalid bootstrapper " ++ n)

/-! ## Platform layer (src/platform.py) -/

/-- Host platform, as discriminated by `is_linux()` / `is_windows()`
(`sys.platform` starting with "linux" / "win"). -/
inductive Platform where
  | linux
  | windows
  | other
deriving DecidableEq, Repr

/-- `get_default_bootstrapper_for_platform` from src/platform.py lines 26-29. -/
def get_default_bootstrapper_for_platform (plat : Platform) : Option String :=
  if plat = Platform.linux then some "Sober" else none

/-- The six nested path segments `ExtraContent/.../BuilderIcons/BuilderIcons`
(src/main.py lines 160-167; the same sequence appears in the deployment
paths of src/main.py lines 121-132, 244-254 and src/platform.py). -/
def marker_parts : List String :=
  ["ExtraContent", "LuaPackages", "Packages", "_Index", "BuilderIcons", "BuilderIcons"]

/-- Filesystem paths are modelled as their `pathlib.Path.parts` segment
lists, omitting the root anchor (whose name is `""` and which can never
equal a marker segment), so `Path.name` is the last element and
`Path.parent` drops the last element. -/
abbrev PathSegs := List String

/-- `_get_font_dir` from src/platform.py lines 32-71.  `home` models
`Path.home()`, `lad` models `os.environ.get("LOCALAPPDATA")`; `modName`
is truthy only when it is `some m` with `m ≠ ""`. -/
def get_font_dir (plat : Platform) (home : PathSegs) (lad : Option PathSegs)
    (bootstrapper : String) (modName : Option String) : Option PathSegs :=
  if plat = Platform.linux ∧ bootstrapper = "Sober" then
    some (home ++ [".var", "app", "org.vinegarhq.Sober", "data", "sober", "asset_overlay"]
      ++ marker_parts ++ ["Font"])
  else if plat = Platform.windows then
    match lad with
    | none => none
    | some l =>
      let base := l ++ [bootstrapper, "Modifications"]
      let base :=
        match modName with
        | some m => if strLower bootstrapper = "froststrap" ∧ m ≠ "" then base ++ [m] else base
        | none => base
      some (base ++ marker_parts ++ ["Font"])
  else none

/-- Directory into which `write_buildericons_json` (src/platform.py lines
90-115) writes `BuilderIcons.json`: the parent of the resolved font
directory; `none` models the `return False` path where nothing is written. -/
def write_buildericons_json_dir (plat : Platform) (home : PathSegs) (lad : Option PathSegs)
    (bootstrapper : String) (modName : Option String) : Option PathSegs :=
  (get_font_dir plat home lad bootstrapper modName).map List.dropLast

/-- Long-option names accepted by the `argparse` parser in src/main.py
lines 266-290 (`__main__`). -/
def parserOptionNames : List String := ["--path", "--color", "--bootstrapper"]

/-! ## Font tables and `convert_ttf_to_colr` (src/main.py lines 62-142) -/

/-- A `fontTools` CPAL `Color(red, green, blue, alpha)` record.  Fields are
`Int` because `hex_to_rgb` can in fact produce negative channel values. -/
structure CPALColor where
  red : Int
  green : Int
  blue : Int
  alpha : Int
deriving DecidableEq, Repr

/-- The CPAL table as assembled in src/main.py lines 84-90. -/
structure CPALTable where
  version : Nat
  palettes : List (List CPALColor)
  numPaletteEntries : Nat
deriving DecidableEq, Repr

/-- A `fontTools` COLR `LayerRecord` with the two fields the code sets. -/
structure LayerRecord where
  name : String
  colorID : Nat
deriving DecidableEq, Repr

/-- The COLR table as assembled in src/main.py lines 93-108.  `ColorLayers`
is a Python dict keyed by glyph name, modelled as an insertion-ordered
association list. -/
structure COLRTable where
  version : Nat
  ColorLayers : List (String × List LayerRecord)
deriving DecidableEq, Repr

/-- Python dict assignment `m[k] = v`: overwrite in place if the key is
present, append otherwise. -/
def dictSet (m : List (String × α)) (k : String) (v : α) : List (String × α) :=
  if m.any (fun p => p.1 = k) then
    m.map (fun p => if p.1 = k then (k, v) else p)
  else m ++ [(k, v)]

/-- The `layer_map` loop of src/main.py lines 95-105: every glyph other
than `.notdef` is mapped to a single layer bearing its own name and
`colorID = 0`. -/
def buildColorLayers (glyphOrder : List String) : List (String × List LayerRecord) :=
  glyphOrder.foldl
    (fun m g => if g = ".notdef" then m else dictSet m g [⟨g, 0⟩]) []

/-- The CPAL table built for a given color: one palette, one entry,
alpha 255 (src/main.py lines 84-89). -/
def buildCPAL (r g b : Int) : CPALTable :=
  { version := 0, palettes := [[⟨r, g, b, 255⟩]], numPaletteEntries := 1 }

/-- Per-file environment for one `convert_ttf_to_colr` call: the outcomes
of the filesystem/library operations the function performs, plus the
`LOCALAPPDATA` lookup of src/main.py line 115. -/
structure FileEnv where
  loadResult : Except String (List String)
  saveResult : Except String Unit
  copyResult : Except String Unit
  localAppData : Option PathSegs
deriving Repr

/-- What the deployment block of src/main.py lines 114-139 did. -/
inductive DeployOutcome where
  | notRequested
  | noLocalAppData
  | copied (destDir : PathSegs)
  | copyFailed (msg : String)
deriving DecidableEq, Repr

/-- Result of the `try` body of `convert_ttf_to_colr`: either the outer
`except Exception` caught an error (load or save failure) and printed it,
or the font was saved with the given tables and the deployment block ran. -/
inductive ConvertOutcome where
  | errorCaught (msg : String)
  | saved (cpal : CPALTable) (colr : COLRTable) (deploy : DeployOutcome)
deriving DecidableEq, Repr

/-- `convert_ttf_to_colr` from src/main.py lines 62-142.  The unpacking
`r, g, b = rgb_color` (line 71) sits before the `try` block, so a value
that is not a 3-tuple — `rgb_color = None` is the reachable case, passed
down from `__main__` when `--color` is the empty string — raises a
`TypeError` that propagates to the caller; this is the only
`Except.error` result.  Everything after it happens inside
`try ... except Exception`, so no other error escapes: load and save
failures hit the outer handler (`errorCaught`), copy failures hit the
inner handler of lines 133-139 (`copyFailed`). -/
def convert_ttf_to_colr (rgb_color : Option (Int × Int × Int))
    (bootstrapper : Option String) (env : FileEnv) : Except String ConvertOutcome :=
  match rgb_color with
  | none => Except.error "TypeError: cannot unpack non-iterable NoneType object"
  | some (r, g, b) =>
    Except.ok <|
      match env.loadResult with
      | Except.error e => ConvertOutcome.errorCaught e
      | Except.ok glyphOrder =>
        let cpal := buildCPAL r g b
        let colr : COLRTable := { version := 0, ColorLayers := buildColorLayers glyphOrder }
        match env.saveResult with
        | Except.error e => ConvertOutcome.errorCaught e
        | Except.ok _ =>
          match bootstrapper with
          | none => ConvertOutcome.saved cpal colr DeployOutcome.notRequested
          | some b2 =>
            match env.localAppData with
            | none => ConvertOutcome.saved cpal colr DeployOutcome.noLocalAppData
            | some l =>
              match env.copyResult with
              | Except.ok _ =>
                ConvertOutcome.saved cpal colr
                  (DeployOutcome.copied (l ++ [b2, "Modifications"] ++ marker_parts ++ ["Font"]))
              | Except.error e => ConvertOutcome.saved cpal colr (DeployOutcome.copyFailed e)

/-! ## Directory walk and manifest placement (src/main.py lines 145-263) -/

/-- The extension filter of src/main.py line 227:
`file.lower().endswith(".ttf")`. -/
def isTTF (file : String) : Bool :=
  List.isSuffixOf ".ttf".data (strLower file).data

/-- Result of the walk loop of src/main.py lines 224-230 over the files
`os.walk` enumerates: the final `count`, the files on which
`convert_ttf_to_colr` was invoked, and whether an exception escaped the
loop (aborting the run with a traceback). -/
structure WalkOutcome where
  count : Nat
  invoked : List String
  crashed : Bool
deriving DecidableEq, Repr

/-- The walk loop of src/main.py lines 224-230: every file whose lowercase
name ends in `.ttf` is handed to `convert_ttf_to_colr`, then `count` is
incremented.  An exception propagating out of `convert_ttf_to_colr`
aborts the loop (and the whole process). -/
def processFiles (rgb : Option (Int × Int × Int)) (boot : Option String)
    (envOf : String → FileEnv) : List String → WalkOutcome
  | [] => ⟨0, [], false⟩
  | f :: rest =>
    if isTTF f then
      match convert_ttf_to_colr rgb boot (envOf f) with
      | Except.error _ => ⟨0, [f], true⟩
      | Except.ok _ =>
        let w := processFiles rgb boot envOf rest
        ⟨w.count + 1, f :: w.invoked, w.crashed⟩
    else processFiles rgb boot envOf rest

/-- `Path.name` under the anchor-free segment-list convention
(`Path(".").name` and `Path("/").name` are both `""`). -/
def lastName (p : PathSegs) : String := p.getLast?.getD ""

/-- Whether a path's last six segments, lowercased, are the marker
sequence (the test of src/main.py lines 172-175). -/
def tailMatchesMarker (p : PathSegs) : Bool :=
  marker_parts.length ≤ p.length &&
  (p.drop (p.length - marker_parts.length)).map strLower == marker_parts.map strLower

/-- The ancestor scan of src/main.py lines 169-176: check `p`, then each
parent in turn, returning the first whose tail matches the marker. -/
def markerAncestor (p : PathSegs) : Option PathSegs :=
  if tailMatchesMarker p then some p
  else if he : p.isEmpty then none
  else markerAncestor p.dropLast
termination_by p.length
decreasing_by
  simp only [List.isEmpty_eq_true] at he
  have : p.length ≠ 0 := fun h0 => he (List.eq_nil_of_length_eq_zero h0)
  simp [List.length_dropLast]
  omega

/-- `_derive_buildericons_dir_from_path` from src/main.py lines 145-180. -/
def derive_buildericons_dir_from_path (p : PathSegs) : Option PathSegs :=
  if strLower (lastName p) = "font" ∧ strLower (lastName p.dropLast) = "buildericons" then
    some p.dropLast
  else if strLower (lastName p) = "buildericons" then
    some p
  else markerAncestor p

/-- Directory that receives `BuilderIcons.json` at the end of
`process_directory` (src/main.py lines 237-263), or `none` when no
manifest is written: with a bootstrapper, `LOCALAPPDATA` (if set) joined
with the bootstrapper, `Modifications` and the marker segments; without
one, whatever `_derive_buildericons_dir_from_path` yields for the walked
root. -/
def manifestDir (boot : Option String) (lad : Option PathSegs)
    (targetDir : PathSegs) : Option PathSegs :=
  match boot with
  | some b => match lad with
    | none => none
    | some l => some (l ++ [b, "Modifications"] ++ marker_parts)
  | none => derive_buildericons_dir_from_path targetDir

/-- Exit status of `process_directory` (src/main.py lines 213-263): exit
code 1 both for the explicit `sys.exit(1)` when the target is not a
directory (line 216) and for an uncaught exception escaping the walk loop
(the `rgb_color = None` unpack — CPython exits with status 1 on an
unhandled exception); otherwise the function returns and `__main__` falls
off the end with status 0.  Manifest writing (lines 237-263) happens
after the walk and catches all its failures, so it never affects the exit
status. -/
def process_directory_exit (rgb : Option (Int × Int × Int)) (boot : Option String)
    (isDir : Bool) (files : List String) (envOf : String → FileEnv) : Nat :=
  if isDir then
    if (processFiles rgb boot envOf files).crashed then 1 else 0
  else 1

/-- The bootstrapper-resolution step of `__main__` (src/main.py lines
303-312) followed by the `process_directory` call: a truthy
`--bootstrapper` value that `canonicalize_bootstrapper` rejects exits
with status 1; a falsy one is skipped, leaving no selection. -/
def resolveBootExit (rgb : Option (Int × Int × Int)) (bootArg : Option String)
    (isDir : Bool) (files : List String) (envOf : String → FileEnv) : Nat :=
  match bootArg with
  | none => process_directory_exit rgb none isDir files envOf
  | some s =>
    if s ≠ "" then
      match canonicalize_bootstrapper (some s) with
      | Except.error _ => 1
      | Except.ok c => process_directory_exit rgb c isDir files envOf
    else process_directory_exit rgb none isDir files envOf

/-- Exit status of a full run of `__main__` (src/main.py lines 292-312):
the color step first (a truthy `--color` value that `hex_to_rgb` rejects
exits with status 1; the empty string is skipped by the `if args.color:`
guard, leaving `final_color = None`), then bootstrapper resolution and
`process_directory`.  `colorArg` and `bootArg` are the parsed `--color`
and `--bootstrapper` values, `isDir` records whether `--path` names an
existing directory, and `files` are the files the walk enumerates. -/
def mainExit (colorArg : String) (bootArg : Option String) (isDir : Bool)
    (files : List String) (envOf : String → FileEnv) : Nat :=
  if colorArg ≠ "" then
    match hex_to_rgb colorArg with
    | none => 1
    | some c => resolveBootExit (some c) bootArg isDir files envOf
  else resolveBootExit none bootArg isDir files envOf

/-- `__main__`'s resolution of `canonical_bootstrapper` (src/main.py lines
303-312).  main.py does not import src/platform.py and never consults
`get_default_bootstrapper_for_platform`, so the host platform plays no
role; the `plat` parameter is present only to record that absence. -/
def mainResolvedBootstrapper (_plat : Platform) (bootArg : Option String) :
    Except String (Option String) :=
  match bootArg with
  | none => Except.ok none
  | some s =>
    if s ≠ "" then canonicalize_bootstrapper (some s) else Except.ok none

/-- A per-file environment in which every filesystem operation succeeds
and `LOCALAPPDATA` is unset; used to instantiate theorems. -/
def trivialEnv : FileEnv :=
  ⟨Except.ok [], Except.ok (), Except.ok (), none⟩

/-- A per-file environment in which loading the font fails. -/
def failingLoadEnv : FileEnv :=
  ⟨Except.error "bad sfntVersion", Except.ok (), Except.ok (), none⟩

/-! ## Helper lemmas -/

lemma dictSet_append {α : Type} (m : List (String × α)) (k : String) (v : α)
    (h : ∀ p ∈ m, p.1 ≠ k) : dictSet m k v = m ++ [(k, v)] := by
  have hany : m.any (fun p => decide (p.1 = k)) = false := by
    rw [List.any_eq_false]
    intro p hp
    simpa using h p hp
  simp [dictSet, hany]

lemma buildColorLayers_go (l : List String) (acc : List (String × List LayerRecord))
    (hnd : l.Nodup) (hfresh : ∀ g ∈ l, ∀ p ∈ acc, p.1 ≠ g) :
    l.foldl (fun m g => if g = ".notdef" then m else dictSet m g [⟨g, 0⟩]) acc
      = acc ++ (l.filter (fun g => g ≠ ".notdef")).map (fun g => (g, [⟨g, 0⟩])) := by
  induction l generalizing acc with
  | nil => simp
  | cons g rest ih =>
    rcases List.nodup_cons.mp hnd with ⟨hgr, hndr⟩
    rw [List.foldl_cons]
    by_cases hg : g = ".notdef"
    · rw [if_pos hg,
        ih acc hndr (fun g' hg' p hp => hfresh g' (List.mem_cons_of_mem _ hg') p hp)]
      simp [List.filter_cons, hg]
    · have hfresh' : ∀ g' ∈ rest, ∀ p ∈ acc ++ [((g : String), [(⟨g, 0⟩ : LayerRecord)])], p.1 ≠ g' := by
        intro g' hg' p hp
        rcases List.mem_append.mp hp with hpm | hpm
        · exact hfresh g' (List.mem_cons_of_mem _ hg') p hpm
        · have hpg : p = (g, [(⟨g, 0⟩ : LayerRecord)]) := by simpa using hpm
          subst hpg
          intro he
          have hgg : g = g' := he
          exact hgr (hgg ▸ hg')
      rw [if_neg hg,
        dictSet_append _ _ _ (fun p hp => hfresh g (List.mem_cons_self _ _) p hp),
        ih (acc ++ [((g : String), [(⟨g, 0⟩ : LayerRecord)])]) hndr hfresh']
      simp [List.filter_cons, hg]

lemma buildColorLayers_eq (glyphOrder : List String) (hnd : glyphOrder.Nodup) :
    buildColorLayers glyphOrder
      = (glyphOrder.filter (fun g => g ≠ ".notdef")).map (fun g => (g, [⟨g, 0⟩])) := by
  simpa [buildColorLayers] using
    buildColorLayers_go glyphOrder [] hnd (by simp)

lemma length_filter_ne {l : List String} {a : String} (hnd : l.Nodup) (ha : a ∈ l) :
    (l.filter (fun x => x ≠ a)).length = l.length - 1 := by
  induction l with
  | nil => cases ha
  | cons b rest ih =>
    rcases List.nodup_cons.mp hnd with ⟨hbr, hndr⟩
    rcases List.mem_cons.mp ha with rfl | hmem
    · have hfix : rest.filter (fun x => x ≠ a) = rest := by
        apply List.filter_eq_self.mpr
        intro x hx
        simp only [ne_eq, decide_eq_true_eq]
        intro he
        exact hbr (he ▸ hx)
      rw [List.filter_cons, if_neg (by simp), hfix]
      simp
    · have hne : b ≠ a := fun he => hbr (he ▸ hmem)
      have hlen := ih hndr hmem
      have hpos : 0 < rest.length := List.length_pos_of_mem hmem
      simp only [List.filter_cons, List.length_cons]
      rw [if_pos (by simpa using hne)]
      simp only [List.length_cons, hlen]
      omega

lemma convert_some_eq (r g b : Int) (boot : Option String) (env : FileEnv) :
    ∃ o, convert_ttf_to_colr (some (r, g, b)) boot env = Except.ok o :=
  ⟨_, rfl⟩

lemma processFiles_some (c : Int × Int × Int) (boot : Option String)
    (envOf : String → FileEnv) (files : List String) :
    processFiles (some c) boot envOf files
      = ⟨(files.filter isTTF).length, files.filter isTTF, false⟩ := by
  induction files with
  | nil => rfl
  | cons f rest ih =>
    obtain ⟨r, g, b⟩ := c
    by_cases hf : isTTF f
    · obtain ⟨o, ho⟩ := convert_some_eq r g b boot (envOf f)
      simp [processFiles, hf, ho, ih, List.filter_cons]
    · simp [processFiles, hf, ih, List.filter_cons]

lemma processFiles_none_crashed (boot : Option String)
    (envOf : String → FileEnv) (files : List String) :
    (processFiles none boot envOf files).crashed = files.any isTTF := by
  induction files with
  | nil => rfl
  | cons f rest ih =>
    by_cases hf : isTTF f
    · simp [processFiles, hf, convert_ttf_to_colr]
    · simp [processFiles, hf, ih]

/-! ## Claim C1 -/

/-- C1: for a font whose glyph order consists of distinct names, one of
which is `.notdef`, a successful `convert_ttf_to_colr` run installs a CPAL
table with exactly one palette holding exactly one color entry
`(r, g, b, 255)`, and a COLR table mapping exactly the other `N - 1`
glyphs, in order, each to a single layer named after the glyph itself with
color index 0. -/
theorem convert_tables_spec (r g b : Int) (glyphOrder : List String)
    (boot : Option String) (env : FileEnv)
    (hload : env.loadResult = Except.ok glyphOrder)
    (hsave : env.saveResult = Except.ok ())
    (hnd : glyphOrder.Nodup) (hmem : ".notdef" ∈ glyphOrder) :
    (∃ deploy, convert_ttf_to_colr (some (r, g, b)) boot env
        = Except.ok (ConvertOutcome.saved
            ({ version := 0, palettes := [[⟨r, g, b, 255⟩]], numPaletteEntries := 1 } : CPALTable)
            ({ version := 0,
               ColorLayers := (glyphOrder.filter (fun gn => gn ≠ ".notdef")).map
                 (fun gn => (gn, [(⟨gn, 0⟩ : LayerRecord)])) } : COLRTable)
            deploy)) ∧
    ((glyphOrder.filter (fun gn => gn ≠ ".notdef")).map
        (fun gn => ((gn : String), [(⟨gn, 0⟩ : LayerRecord)]))).length = glyphOrder.length - 1 := by
  constructor
  · have hlayers := buildColorLayers_eq glyphOrder hnd
    cases boot with
    | none =>
      exact ⟨DeployOutcome.notRequested, by
        simp [convert_ttf_to_colr, hload, hsave, buildCPAL, hlayers]⟩
    | some b2 =>
      cases hl : env.localAppData with
      | none =>
        exact ⟨DeployOutcome.noLocalAppData, by
          simp [convert_ttf_to_colr, hload, hsave, hl, buildCPAL, hlayers]⟩
      | some lad =>
        cases hc : env.copyResult with
        | ok u =>
          exact ⟨DeployOutcome.copied (lad ++ [b2, "Modifications"] ++ marker_parts ++ ["Font"]), by
            simp [convert_ttf_to_colr, hload, hsave, hl, hc, buildCPAL, hlayers]⟩
        | error e =>
          exact ⟨DeployOutcome.copyFailed e, by
            simp [convert_ttf_to_colr, hload, hsave, hl, hc, buildCPAL, hlayers]⟩
  · rw [List.length_map]
    exact length_filter_ne hnd hmem

/-- Witness for C1 at a concrete three-glyph font. -/
theorem convert_tables_spec_witness :
    (⟨Except.ok [".notdef", "A", "B"], Except.ok (), Except.ok (), none⟩ : FileEnv).loadResult
        = Except.ok [".notdef", "A", "B"] ∧
    ([".notdef", "A", "B"] : List String).Nodup ∧
    ".notdef" ∈ ([".notdef", "A", "B"] : List String) ∧
    ((∃ deploy, convert_ttf_to_colr (some (0, 0, 139)) none
        ⟨Except.ok [".notdef", "A", "B"], Except.ok (), Except.ok (), none⟩
        = Except.ok (ConvertOutcome.saved
            ({ version := 0, palettes := [[⟨0, 0, 139, 255⟩]], numPaletteEntries := 1 } : CPALTable)
            ({ version := 0,
               ColorLayers := (([".notdef", "A", "B"] : List String).filter
                  (fun gn => gn ≠ ".notdef")).map
                    (fun gn => (gn, [(⟨gn, 0⟩ : LayerRecord)])) } : COLRTable)
            deploy)) ∧
      ((([".notdef", "A", "B"] : List String).filter (fun gn => gn ≠ ".notdef")).map
          (fun gn => ((gn : String), [(⟨gn, 0⟩ : LayerRecord)]))).length
        = ([".notdef", "A", "B"] : List String).length - 1) :=
  ⟨rfl, by decide, by decide,
    convert_tables_spec 0 0 139 [".notdef", "A", "B"] none
      ⟨Except.ok [".notdef", "A", "B"], Except.ok (), Except.ok (), none⟩
      rfl rfl (by decide) (by decide)⟩

/-! ## Claim C9 -/

/-- Counterexample for C9: with `rgb_color = None` (reachable from
`__main__` when `--color` is the empty string), the unpacking on
src/main.py line 71 sits outside the `try` block, and
`convert_ttf_to_colr` propagates the `TypeError` to its caller. -/
theorem convert_unpack_raises_cex :
    (convert_ttf_to_colr none none trivialEnv).isOk = false := rfl

/-- C9 (amended): whenever `rgb_color` is an actual triple, every failure
of font load, table mutation, save, or deployment copy is caught inside
`convert_ttf_to_colr` — for every per-file environment the call returns
normally, so one bad font cannot abort the batch. -/
theorem convert_no_escape_spec (c : Int × Int × Int) (boot : Option String)
    (env : FileEnv) :
    (convert_ttf_to_colr (some c) boot env).isOk = true := by
  obtain ⟨r, g, b⟩ := c
  rfl

/-! ## Claim C10 -/

/-- C10: the reported count equals the number of files whose lowercase
name ends in `.ttf`, for every assignment of per-file outcomes — the
counter is incremented even for files whose conversion failed and was
logged. -/
theorem count_ignores_failures_spec (c : Int × Int × Int) (boot : Option String)
    (envOf : String → FileEnv) (files : List String) :
    (processFiles (some c) boot envOf files).count = (files.filter isTTF).length := by
  rw [processFiles_some]

/-! ## Claim C3 -/

/-- Counterexample for C3: a file named `icons.OTF` ends (case-
insensitively) in the supported-per-claim extension `.otf`, yet the walk
loop never invokes `convert_ttf_to_colr` on it and counts zero files. -/
theorem walker_otf_cex :
    List.isSuffixOf ".otf".data (strLower "icons.OTF").data = true ∧
    (processFiles (some (0, 0, 139)) none (fun _ => trivialEnv) ["icons.OTF"]).invoked = [] ∧
    (processFiles (some (0, 0, 139)) none (fun _ => trivialEnv) ["icons.OTF"]).count = 0 := by
  refine ⟨by decide, rfl, rfl⟩

/-- C3 (amended): the walk loop invokes the recolorer on exactly the files
whose name ends, case-insensitively, in `.ttf` (OTF is only the output
format, not an accepted input), and counts exactly those files. -/
theorem walker_invokes_exactly_ttf (c : Int × Int × Int) (boot : Option String)
    (envOf : String → FileEnv) (files : List String) :
    (processFiles (some c) boot envOf files).invoked = files.filter isTTF ∧
    (processFiles (some c) boot envOf files).count = (files.filter isTTF).length ∧
    ∀ f, f ∈ (processFiles (some c) boot envOf files).invoked ↔
      f ∈ files ∧ isTTF f = true := by
  rw [processFiles_some]
  refine ⟨rfl, rfl, fun f => ?_⟩
  simp [List.mem_filter]

lemma tailMatchesMarker_nil : tailMatchesMarker ([] : PathSegs) = false := by decide

lemma markerAncestor_eq_some_iff (p a : PathSegs) :
    markerAncestor p = some a ↔
      tailMatchesMarker a = true ∧
      ∃ k, k ≤ p.length ∧ a = p.take k ∧
        ∀ j, k < j → j ≤ p.length → tailMatchesMarker (p.take j) = false := by
  induction p using List.reverseRecOn generalizing a with
  | nil =>
    constructor
    · intro h
      rw [markerAncestor] at h
      simp [tailMatchesMarker_nil] at h
    · rintro ⟨ha, k, hk, hak, -⟩
      have hk0 : k = 0 := Nat.le_zero.mp (by simpa using hk)
      subst hk0
      have hanil : a = [] := by simpa using hak
      subst hanil
      rw [tailMatchesMarker_nil] at ha
      cases ha
  | append_singleton l x ih =>
    have hlen : (l ++ [x]).length = l.length + 1 := by simp
    have htake : ∀ j, j ≤ l.length → (l ++ [x]).take j = l.take j := by
      intro j hj
      rw [List.take_append_of_le_length hj]
    have htakeAll : (l ++ [x]).take (l.length + 1) = l ++ [x] := by
      rw [← hlen, List.take_length]
    by_cases hm : tailMatchesMarker (l ++ [x]) = true
    · rw [markerAncestor, if_pos hm]
      constructor
      · intro h
        injection h with h
        subst h
        refine ⟨hm, l.length + 1, by omega, htakeAll.symm, ?_⟩
        intro j hj1 hj2
        rw [hlen] at hj2
        omega
      · rintro ⟨ha, k, hk, hak, hmax⟩
        rw [hlen] at hk
        by_cases hkl : k = l.length + 1
        · subst hkl
          rw [hak, htakeAll]
        · have hfalse := hmax (l.length + 1) (by omega) (by omega)
          rw [htakeAll] at hfalse
          rw [hfalse] at hm
          cases hm
    · rw [markerAncestor, if_neg hm, dif_neg (by simp)]
      rw [List.dropLast_concat]
      rw [ih a]
      have hmf : tailMatchesMarker (l ++ [x]) = false := eq_false_of_ne_true hm
      constructor
      · rintro ⟨ha, k, hk, hak, hmaxl⟩
        refine ⟨ha, k, by omega, ?_, ?_⟩
        · rw [htake k hk]
          exact hak
        · intro j hj1 hj2
          rw [hlen] at hj2
          by_cases hjn : j ≤ l.length
          · rw [htake j hjn]
            exact hmaxl j hj1 hjn
          · have hje : j = l.length + 1 := by omega
            subst hje
            rw [htakeAll]
            exact hmf
      · rintro ⟨ha, k, hk, hak, hmaxp⟩
        rw [hlen] at hk
        have hkn : k ≤ l.length := by
          rcases Nat.lt_or_ge k (l.length + 1) with hlt | hge
          · omega
          · exfalso
            have hke : k = l.length + 1 := by omega
            subst hke
            rw [htakeAll] at hak
            subst hak
            rw [hmf] at ha
            cases ha
        refine ⟨ha, k, hkn, ?_, ?_⟩
        · rw [htake k hkn] at hak
          exact hak
        · intro j hj1 hj2
          have := hmaxp j hj1 (by omega)
          rw [htake j hj2] at this
          exact this

lemma hexChar_facts : ∀ c ∈ hexChars,
    (hexDigitVal c).isSome = true ∧ isPySpace c = false ∧
    c ≠ '+' ∧ c ≠ '-' ∧ c ≠ '_' ∧ c ≠ 'x' ∧ c ≠ 'X' := by decide

lemma hexChar_val_lt : ∀ c ∈ hexChars, (hexDigitVal c).getD 0 < 16 := by decide

lemma pyIntHex_pair {c1 c2 : Char} (h1 : c1 ∈ hexChars) (h2 : c2 ∈ hexChars) :
    pyIntHex [c1, c2]
      = some ((16 * (hexDigitVal c1).getD 0 + (hexDigitVal c2).getD 0 : Nat) : Int) := by
  fin_cases h1 <;> fin_cases h2 <;> decide

lemma hex_to_rgb_isSome_iff (s : String) :
    (hex_to_rgb s).isSome = true ↔
      ((lstripHash (pyStrip s.data)).length = 6 ∧
        (pyIntHex ((lstripHash (pyStrip s.data)).take 2)).isSome = true ∧
        (pyIntHex (((lstripHash (pyStrip s.data)).drop 2).take 2)).isSome = true ∧
        (pyIntHex ((lstripHash (pyStrip s.data)).drop 4)).isSome = true) := by
  simp only [hex_to_rgb]
  by_cases hl : (lstripHash (pyStrip s.data)).length = 6
  · rw [if_pos hl]
    cases hr : pyIntHex ((lstripHash (pyStrip s.data)).take 2) <;>
      cases hg : pyIntHex (((lstripHash (pyStrip s.data)).drop 2).take 2) <;>
      cases hb : pyIntHex ((lstripHash (pyStrip s.data)).drop 4) <;>
      simp [hl]
  · rw [if_neg hl]
    simp [hl]

/-! ## Claim C2 -/

/-- Counterexample for C2: `"+1+2+3"` contains non-hex characters after
stripping, so per the claim parsing must fail, yet the code accepts it
(Python `int(_, 16)` takes signs); `"##FF0000"` still has a `#` after
removing one optional `#` prefix, yet the code accepts it
(`lstrip("#")` removes every leading `#`); `"-1-2-3"` even yields
channel values outside `[0, 255]`. -/
theorem hex_to_rgb_claim_cex :
    hex_to_rgb "+1+2+3" = some (1, 2, 3) ∧
    '+' ∈ lstripHash (pyStrip ("+1+2+3" : String).data) ∧
    '+' ∉ hexChars ∧
    hex_to_rgb "##FF0000" = some (255, 0, 0) ∧
    hex_to_rgb "-1-2-3" = some (-1, -2, -3) := by
  decide

/-- C2 (amended): parsing strips surrounding whitespace and then every
leading `#`; it succeeds exactly when 6 characters remain and each of the
three consecutive 2-character groups is accepted by Python base-16
integer parsing (which accepts a few signed or padded forms beyond plain
digit pairs, so results can leave `[0, 255]`); whenever the 6 remaining
characters are all plain hexadecimal digits it returns the big-endian
decoding of the three groups as red, green, blue, each in `[0, 255]`. -/
theorem hex_to_rgb_spec (s : String) :
    ((hex_to_rgb s).isSome = true ↔
      ((lstripHash (pyStrip s.data)).length = 6 ∧
        (pyIntHex ((lstripHash (pyStrip s.data)).take 2)).isSome = true ∧
        (pyIntHex (((lstripHash (pyStrip s.data)).drop 2).take 2)).isSome = true ∧
        (pyIntHex ((lstripHash (pyStrip s.data)).drop 4)).isSome = true)) ∧
    (∀ c1 c2 c3 c4 c5 c6 : Char,
      lstripHash (pyStrip s.data) = [c1, c2, c3, c4, c5, c6] →
      c1 ∈ hexChars → c2 ∈ hexChars → c3 ∈ hexChars →
      c4 ∈ hexChars → c5 ∈ hexChars → c6 ∈ hexChars →
      hex_to_rgb s = some
        (((16 * (hexDigitVal c1).getD 0 + (hexDigitVal c2).getD 0 : Nat) : Int),
         ((16 * (hexDigitVal c3).getD 0 + (hexDigitVal c4).getD 0 : Nat) : Int),
         ((16 * (hexDigitVal c5).getD 0 + (hexDigitVal c6).getD 0 : Nat) : Int)) ∧
      16 * (hexDigitVal c1).getD 0 + (hexDigitVal c2).getD 0 < 256 ∧
      16 * (hexDigitVal c3).getD 0 + (hexDigitVal c4).getD 0 < 256 ∧
      16 * (hexDigitVal c5).getD 0 + (hexDigitVal c6).getD 0 < 256) := by
  refine ⟨hex_to_rgb_isSome_iff s, ?_⟩
  intro c1 c2 c3 c4 c5 c6 hstrip h1 h2 h3 h4 h5 h6
  have htake2 : (lstripHash (pyStrip s.data)).take 2 = [c1, c2] := by rw [hstrip]; rfl
  have hmid : ((lstripHash (pyStrip s.data)).drop 2).take 2 = [c3, c4] := by rw [hstrip]; rfl
  have hdrop4 : (lstripHash (pyStrip s.data)).drop 4 = [c5, c6] := by rw [hstrip]; rfl
  have hlen : (lstripHash (pyStrip s.data)).length = 6 := by rw [hstrip]; rfl
  refine ⟨?_, ?_, ?_, ?_⟩
  · simp only [hex_to_rgb]
    rw [if_pos hlen, htake2, hmid, hdrop4,
      pyIntHex_pair h1 h2, pyIntHex_pair h3 h4, pyIntHex_pair h5 h6]
  · have := hexChar_val_lt c1 h1
    have := hexChar_val_lt c2 h2
    omega
  · have := hexChar_val_lt c3 h3
    have := hexChar_val_lt c4 h4
    omega
  · have := hexChar_val_lt c5 h5
    have := hexChar_val_lt c6 h6
    omega

/-- Witness for C2 at the concrete input `"#00008B"`. -/
theorem hex_to_rgb_spec_witness :
    lstripHash (pyStrip ("#00008B" : String).data) = ['0', '0', '0', '0', '8', 'B'] ∧
    '0' ∈ hexChars ∧ '8' ∈ hexChars ∧ 'B' ∈ hexChars ∧
    (hex_to_rgb "#00008B" = some
        (((16 * (hexDigitVal '0').getD 0 + (hexDigitVal '0').getD 0 : Nat) : Int),
         ((16 * (hexDigitVal '0').getD 0 + (hexDigitVal '0').getD 0 : Nat) : Int),
         ((16 * (hexDigitVal '8').getD 0 + (hexDigitVal 'B').getD 0 : Nat) : Int)) ∧
      16 * (hexDigitVal '0').getD 0 + (hexDigitVal '0').getD 0 < 256 ∧
      16 * (hexDigitVal '0').getD 0 + (hexDigitVal '0').getD 0 < 256 ∧
      16 * (hexDigitVal '8').getD 0 + (hexDigitVal 'B').getD 0 < 256) :=
  ⟨by decide, by decide, by decide, by decide,
    (hex_to_rgb_spec "#00008B").2 '0' '0' '0' '0' '8' 'B' (by decide)
      (by decide) (by decide) (by decide) (by decide) (by decide) (by decide)⟩

/-! ## Claim C6 -/

/-- Counterexample for C6: a walked root whose components do not end in
the six-segment marker sequence (it is only three segments long) still
receives a manifest, through the `buildericons`-basename shortcut of
src/main.py lines 155-158. -/
theorem derive_extra_case_cex :
    manifestDir none none ["C:", "Users", "BuilderIcons"]
      = some ["C:", "Users", "BuilderIcons"] ∧
    tailMatchesMarker ["C:", "Users", "BuilderIcons"] = false := by
  constructor
  · rfl
  · decide

/-- C6 (amended): with no bootstrapper identity, the manifest destination
derived from the walked root `p` is: the parent of `p` when `p`'s basename
is `font` and its parent's basename is `buildericons` (case-insensitively);
otherwise `p` itself when `p`'s basename is `buildericons`; otherwise the
longest ancestor prefix of `p` whose components end, case-insensitively,
with the six-segment marker sequence; and no manifest is written exactly
when none of these applies. -/
theorem manifest_fallback_spec (lad : Option PathSegs) (p d : PathSegs) :
    manifestDir none lad p = some d ↔
      ((strLower (lastName p) = "font" ∧ strLower (lastName p.dropLast) = "buildericons") ∧
        d = p.dropLast) ∨
      (¬(strLower (lastName p) = "font" ∧ strLower (lastName p.dropLast) = "buildericons") ∧
        strLower (lastName p) = "buildericons" ∧ d = p) ∨
      (¬(strLower (lastName p) = "font" ∧ strLower (lastName p.dropLast) = "buildericons") ∧
        strLower (lastName p) ≠ "buildericons" ∧
        tailMatchesMarker d = true ∧
        ∃ k, k ≤ p.length ∧ d = p.take k ∧
          ∀ j, k < j → j ≤ p.length → tailMatchesMarker (p.take j) = false) := by
  show derive_buildericons_dir_from_path p = some d ↔ _
  unfold derive_buildericons_dir_from_path
  by_cases h1 : strLower (lastName p) = "font" ∧ strLower (lastName p.dropLast) = "buildericons"
  · rw [if_pos h1]
    constructor
    · intro h
      injection h with h
      exact Or.inl ⟨h1, h.symm⟩
    · rintro (⟨-, hd⟩ | ⟨hn1, -, -⟩ | ⟨hn1, -, -, -⟩)
      · rw [hd]
      · exact absurd h1 hn1
      · exact absurd h1 hn1
  · rw [if_neg h1]
    by_cases h2 : strLower (lastName p) = "buildericons"
    · rw [if_pos h2]
      constructor
      · intro h
        injection h with h
        exact Or.inr (Or.inl ⟨h1, h2, h.symm⟩)
      · rintro (⟨hy1, -⟩ | ⟨-, -, hd⟩ | ⟨-, hn2, -, -⟩)
        · exact absurd hy1 h1
        · rw [hd]
        · exact absurd h2 hn2
    · rw [if_neg h2]
      rw [markerAncestor_eq_some_iff]
      constructor
      · rintro ⟨ha, hex⟩
        exact Or.inr (Or.inr ⟨h1, h2, ha, hex⟩)
      · rintro (⟨hy1, -⟩ | ⟨-, hy2, -⟩ | ⟨-, -, ha, hex⟩)
        · exact absurd hy1 h1
        · exact absurd hy2 h2
        · exact ⟨ha, hex⟩

/-! ## Claim C8 -/

/-- Counterexample for C8: `" froststrap"` is non-empty and does not equal
any canonical name case-insensitively (it carries leading whitespace), so
per the claim it should be rejected; but `canonicalize_bootstrapper`
strips whitespace before matching and accepts it. -/
theorem canonicalize_strip_cex :
    canonicalize_bootstrapper (some " froststrap") = Except.ok (some "Froststrap") ∧
    (BOOTSTRAPPERS.all (fun c => strLower c != strLower " froststrap")) = true := by
  exact ⟨rfl, by decide⟩

/-- C8 (amended): bootstrapper resolution is total: absent or empty input
yields the "no selection" value; a non-empty input whose stripped,
lowercased form equals some canonical name's lowercase form returns that
canonical-cased name; every other non-empty input is rejected with an
invalid-input error. -/
theorem canonicalize_spec :
    canonicalize_bootstrapper none = Except.ok none ∧
    canonicalize_bootstrapper (some "") = Except.ok none ∧
    ∀ n : String, n ≠ "" →
      (∃ c, c ∈ BOOTSTRAPPERS ∧ strLower c = strLower (strStrip n) ∧
        canonicalize_bootstrapper (some n) = Except.ok (some c)) ∨
      ((∀ c ∈ BOOTSTRAPPERS, strLower c ≠ strLower (strStrip n)) ∧
        ∃ e, canonicalize_bootstrapper (some n) = Except.error e) := by
  refine ⟨rfl, rfl, fun n hn => ?_⟩
  rw [show canonicalize_bootstrapper (some n)
      = (if n = "" then Except.ok none
         else match BOOTSTRAPPERS.find? (fun c => strLower c = strLower (strStrip n)) with
           | some c => Except.ok (some c)
           | none => Except.error ("Invalid bootstrapper " ++ n)) from rfl,
    if_neg hn]
  cases hf : BOOTSTRAPPERS.find? (fun c => strLower c = strLower (strStrip n)) with
  | some c =>
    left
    have hp := List.find?_some hf
    have hpc : strLower c = strLower (strStrip n) := by simpa using hp
    exact ⟨c, List.mem_of_find?_eq_some hf, hpc, rfl⟩
  | none =>
    right
    refine ⟨fun c hc => ?_, _, rfl⟩
    simpa using List.find?_eq_none.mp hf c hc

/-- Witness for C8 at the concrete input `"FROSTSTRAP"`. -/
theorem canonicalize_spec_witness :
    ("FROSTSTRAP" : String) ≠ "" ∧
    ((∃ c, c ∈ BOOTSTRAPPERS ∧ strLower c = strLower (strStrip "FROSTSTRAP") ∧
        canonicalize_bootstrapper (some "FROSTSTRAP") = Except.ok (some c)) ∨
      ((∀ c ∈ BOOTSTRAPPERS, strLower c ≠ strLower (strStrip "FROSTSTRAP")) ∧
        ∃ e, canonicalize_bootstrapper (some "FROSTSTRAP") = Except.error e)) :=
  ⟨by decide, canonicalize_spec.2.2 "FROSTSTRAP" (by decide)⟩

/-! ## Claim C5 -/

/-- Counterexample for C5: on a Linux-like host with no `--bootstrapper`
argument, `__main__` resolves the bootstrapper to the absent value — the
fixed platform default `"Sober"` defined in src/platform.py is never
substituted, because main.py never calls that module. -/
theorem default_bootstrapper_unused_cex :
    mainResolvedBootstrapper Platform.linux none = Except.ok none ∧
    get_default_bootstrapper_for_platform Platform.linux = some "Sober" ∧
    (Except.ok none : Except String (Option String)) ≠ Except.ok (some "Sober") := by
  refine ⟨rfl, rfl, fun h => ?_⟩
  injection h with h2
  exact Option.noConfusion h2

/-- C5 (amended): `get_default_bootstrapper_for_platform` returns the
fixed default `"Sober"` on Linux-like hosts and the absent value
elsewhere, but `__main__` never consults it: its bootstrapper resolution
is platform-independent and maps absent input to the absent value on
every host. -/
theorem default_bootstrapper_spec :
    (∀ plat bootArg, mainResolvedBootstrapper plat bootArg
        = mainResolvedBootstrapper Platform.other bootArg) ∧
    (∀ plat, mainResolvedBootstrapper plat none = Except.ok none) ∧
    (∀ plat, plat = Platform.linux →
        get_default_bootstrapper_for_platform plat = some "Sober") ∧
    (∀ plat, plat ≠ Platform.linux →
        get_default_bootstrapper_for_platform plat = none) := by
  refine ⟨fun plat bootArg => rfl, fun plat => rfl, fun plat hp => ?_, fun plat hp => ?_⟩
  · subst hp
    rfl
  · simp [get_default_bootstrapper_for_platform, hp]

/-- Witness for C5 at the Linux and Windows platforms. -/
theorem default_bootstrapper_spec_witness :
    (Platform.linux = Platform.linux ∧
      get_default_bootstrapper_for_platform Platform.linux = some "Sober") ∧
    (Platform.windows ≠ Platform.linux ∧
      get_default_bootstrapper_for_platform Platform.windows = none) :=
  ⟨⟨rfl, default_bootstrapper_spec.2.2.1 Platform.linux rfl⟩,
   ⟨by decide, default_bootstrapper_spec.2.2.2 Platform.windows (by decide)⟩⟩

/-! ## Claim C4 -/

/-- Counterexample for C4: the `argparse` parser of `__main__` defines no
`--mod-name` option at all, so no modification name can be supplied on
the command line. -/
theorem no_mod_name_option_cex :
    ¬ ("--mod-name" ∈ parserOptionNames) := by decide

/-- C4 (amended): the path resolver `_get_font_dir` in src/platform.py,
given the bootstrapper identity `Froststrap` and a non-empty modification
name, resolves the font destination to
`LOCALAPPDATA/Froststrap/Modifications/<mod>/ExtraContent/LuaPackages/Packages/_Index/BuilderIcons/BuilderIcons/Font`
on a Windows-like host, `write_buildericons_json` places the manifest one
level above the terminal `Font` segment, and the modification-name
segment is honored for no other canonical bootstrapper identity; the CLI
itself exposes no `--mod-name` flag, so only direct callers of the
resolver can pass one. -/
theorem froststrap_mod_dir_spec (home lad : PathSegs) (m : String) (hm : m ≠ "") :
    get_font_dir Platform.windows home (some lad) "Froststrap" (some m)
      = some (lad ++ ["Froststrap", "Modifications", m] ++ marker_parts ++ ["Font"]) ∧
    write_buildericons_json_dir Platform.windows home (some lad) "Froststrap" (some m)
      = some (lad ++ ["Froststrap", "Modifications", m] ++ marker_parts) ∧
    ∀ b ∈ BOOTSTRAPPERS, b ≠ "Froststrap" → ∀ m' : String,
      get_font_dir Platform.windows home (some lad) b (some m')
        = get_font_dir Platform.windows home (some lad) b none := by
  have hsome : ∀ (b m0 : String),
      get_font_dir Platform.windows home (some lad) b (some m0)
        = some ((if strLower b = "froststrap" ∧ m0 ≠ ""
              then lad ++ [b, "Modifications"] ++ [m0]
              else lad ++ [b, "Modifications"]) ++ marker_parts ++ ["Font"]) :=
    fun b m0 => rfl
  have hnone : ∀ b : String,
      get_font_dir Platform.windows home (some lad) b none
        = some (lad ++ [b, "Modifications"] ++ marker_parts ++ ["Font"]) :=
    fun b => rfl
  have hfd : get_font_dir Platform.windows home (some lad) "Froststrap" (some m)
      = some (lad ++ ["Froststrap", "Modifications", m] ++ marker_parts ++ ["Font"]) := by
    rw [hsome, if_pos ⟨by decide, hm⟩]
    simp [List.append_assoc]
  refine ⟨hfd, ?_, ?_⟩
  · unfold write_buildericons_json_dir
    rw [hfd]
    simp only [Option.map_some']
    congr 1
    rw [show lad ++ ["Froststrap", "Modifications", m] ++ marker_parts ++ ["Font"]
        = (lad ++ ["Froststrap", "Modifications", m] ++ marker_parts) ++ ["Font"] from rfl]
    exact List.dropLast_concat
  · intro b hb hbne m'
    have hlow : strLower b ≠ "froststrap" := by
      simp [BOOTSTRAPPERS] at hb
      rcases hb with rfl | rfl | rfl | rfl | rfl
      · decide
      · decide
      · exact absurd rfl hbne
      · decide
      · decide
    rw [hsome, hnone, if_neg (fun hc => hlow hc.1)]

/-- Witness for C4 at a concrete Windows environment and mod name. -/
theorem froststrap_mod_dir_spec_witness :
    ("MyMod" : String) ≠ "" ∧
    (get_font_dir Platform.windows [] (some ["C:", "Users", "X", "AppData", "Local"])
        "Froststrap" (some "MyMod")
      = some (["C:", "Users", "X", "AppData", "Local"]
          ++ ["Froststrap", "Modifications", "MyMod"] ++ marker_parts ++ ["Font"]) ∧
    write_buildericons_json_dir Platform.windows [] (some ["C:", "Users", "X", "AppData", "Local"])
        "Froststrap" (some "MyMod")
      = some (["C:", "Users", "X", "AppData", "Local"]
          ++ ["Froststrap", "Modifications", "MyMod"] ++ marker_parts) ∧
    ∀ b ∈ BOOTSTRAPPERS, b ≠ "Froststrap" → ∀ m' : String,
      get_font_dir Platform.windows [] (some ["C:", "Users", "X", "AppData", "Local"]) b (some m')
        = get_font_dir Platform.windows [] (some ["C:", "Users", "X", "AppData", "Local"]) b none) :=
  ⟨by decide,
    froststrap_mod_dir_spec [] ["C:", "Users", "X", "AppData", "Local"] "MyMod" (by decide)⟩

/-! ## Claim C7 -/

lemma canonicalize_some_eq (n : String) :
    canonicalize_bootstrapper (some n)
      = (if n = "" then Except.ok none
         else match BOOTSTRAPPERS.find? (fun c => strLower c = strLower (strStrip n)) with
           | some c => Except.ok (some c)
           | none => Except.error ("Invalid bootstrapper " ++ n)) := rfl

lemma pde_one_iff (rgb : Option (Int × Int × Int)) (boot : Option String) (isDir : Bool)
    (files : List String) (envOf : String → FileEnv) :
    process_directory_exit rgb boot isDir files envOf = 1 ↔
      isDir = false ∨ (rgb = none ∧ files.any isTTF = true) := by
  unfold process_directory_exit
  cases isDir with
  | false => simp
  | true =>
    rw [if_pos rfl]
    cases rgb with
    | some c =>
      rw [processFiles_some]
      simp
    | none =>
      have hc := processFiles_none_crashed boot envOf files
      cases hany : files.any isTTF with
      | true => simp [hc, hany]
      | false => simp [hc, hany]

lemma rbe_one_iff (rgb : Option (Int × Int × Int)) (bootArg : Option String) (isDir : Bool)
    (files : List String) (envOf : String → FileEnv) :
    resolveBootExit rgb bootArg isDir files envOf = 1 ↔
      ((∃ s, bootArg = some s ∧ s ≠ "" ∧
          ∀ c ∈ BOOTSTRAPPERS, strLower c ≠ strLower (strStrip s)) ∨
        isDir = false ∨ (rgb = none ∧ files.any isTTF = true)) := by
  cases bootArg with
  | none =>
    rw [show resolveBootExit rgb none isDir files envOf
        = process_directory_exit rgb none isDir files envOf from rfl, pde_one_iff]
    constructor
    · exact fun h => Or.inr h
    · rintro (⟨s, hs, -, -⟩ | h)
      · cases hs
      · exact h
  | some s =>
    by_cases hse : s = ""
    · subst hse
      rw [show resolveBootExit rgb (some "") isDir files envOf
          = process_directory_exit rgb none isDir files envOf from rfl, pde_one_iff]
      constructor
      · exact fun h => Or.inr h
      · rintro (⟨s', hs', hne', -⟩ | h)
        · injection hs' with hs'
          exact absurd hs'.symm hne'
        · exact h
    · cases hf : BOOTSTRAPPERS.find? (fun c => strLower c = strLower (strStrip s)) with
      | none =>
        have hval : resolveBootExit rgb (some s) isDir files envOf = 1 := by
          simp only [resolveBootExit]
          rw [if_pos hse, canonicalize_some_eq, if_neg hse, hf]
        rw [hval]
        constructor
        · intro _
          refine Or.inl ⟨s, rfl, hse, fun c hc => ?_⟩
          simpa using List.find?_eq_none.mp hf c hc
        · intro _
          rfl
      | some c =>
        have hval : resolveBootExit rgb (some s) isDir files envOf
            = process_directory_exit rgb (some c) isDir files envOf := by
          simp only [resolveBootExit]
          rw [if_pos hse, canonicalize_some_eq, if_neg hse, hf]
        rw [hval, pde_one_iff]
        constructor
        · exact fun h => Or.inr h
        · rintro (⟨s', hs', -, hall⟩ | h)
          · injection hs' with hs'
            subst hs'
            have hp : strLower c = strLower (strStrip s) := by
              simpa using List.find?_some hf
            exact absurd hp (hall c (List.mem_of_find?_eq_some hf))
          · exact h

lemma mainExit_one_iff (colorArg : String) (bootArg : Option String) (isDir : Bool)
    (files : List String) (envOf : String → FileEnv) :
    mainExit colorArg bootArg isDir files envOf = 1 ↔
      ((colorArg ≠ "" ∧ hex_to_rgb colorArg = none) ∨
        (∃ s, bootArg = some s ∧ s ≠ "" ∧
          ∀ c ∈ BOOTSTRAPPERS, strLower c ≠ strLower (strStrip s)) ∨
        isDir = false ∨
        (colorArg = "" ∧ files.any isTTF = true)) := by
  by_cases hc : colorArg = ""
  · subst hc
    rw [show mainExit "" bootArg isDir files envOf
        = resolveBootExit none bootArg isDir files envOf from rfl, rbe_one_iff]
    constructor
    · rintro (h | h | ⟨-, h⟩)
      · exact Or.inr (Or.inl h)
      · exact Or.inr (Or.inr (Or.inl h))
      · exact Or.inr (Or.inr (Or.inr ⟨rfl, h⟩))
    · rintro (⟨hne, -⟩ | h | h | ⟨-, h⟩)
      · exact absurd rfl hne
      · exact Or.inl h
      · exact Or.inr (Or.inl h)
      · exact Or.inr (Or.inr ⟨rfl, h⟩)
  · cases hh : hex_to_rgb colorArg with
    | none =>
      have hval : mainExit colorArg bootArg isDir files envOf = 1 := by
        simp only [mainExit]
        rw [if_pos hc, hh]
      rw [hval]
      constructor
      · intro _
        exact Or.inl ⟨hc, rfl⟩
      · intro _
        rfl
    | some c =>
      have hval : mainExit colorArg bootArg isDir files envOf
          = resolveBootExit (some c) bootArg isDir files envOf := by
        simp only [mainExit]
        rw [if_pos hc, hh]
      rw [hval, rbe_one_iff]
      constructor
      · rintro (h | h | ⟨hn, -⟩)
        · exact Or.inr (Or.inl h)
        · exact Or.inr (Or.inr (Or.inl h))
        · cases hn
      · rintro (⟨-, hn⟩ | h | h | ⟨he, -⟩)
        · cases hn
        · exact Or.inl h
        · exact Or.inr (Or.inl h)
        · exact absurd he hc

lemma mainExit_zero_or_one (colorArg : String) (bootArg : Option String) (isDir : Bool)
    (files : List String) (envOf : String → FileEnv) :
    mainExit colorArg bootArg isDir files envOf = 0 ∨
    mainExit colorArg bootArg isDir files envOf = 1 := by
  unfold mainExit resolveBootExit process_directory_exit
  repeat' split
  all_goals omega

/-- Counterexample for C7: an empty `--color` value is malformed (its
parse fails), yet with no `.ttf` files under an existing root directory
the run completes with exit status 0 — the `if args.color:` guard skips
the color check entirely for the empty string. -/
theorem empty_color_exit_cex :
    hex_to_rgb "" = none ∧
    mainExit "" none true [] (fun _ => trivialEnv) = 0 := ⟨rfl, rfl⟩

/-- C7 (amended): the process exits with status 1 exactly when the
`--color` argument is non-empty and malformed, or the `--bootstrapper`
argument is non-empty and matches no canonical name after stripping and
lowercasing, or the `--path` argument is not an existing directory, or
the `--color` argument is empty while some walked file has a `.ttf` name
(the unchecked `None` color then crashes the walk); in every other run it
exits with status 0. -/
theorem exit_code_spec (colorArg : String) (bootArg : Option String) (isDir : Bool)
    (files : List String) (envOf : String → FileEnv) :
    (mainExit colorArg bootArg isDir files envOf = 1 ↔
      ((colorArg ≠ "" ∧ hex_to_rgb colorArg = none) ∨
        (∃ s, bootArg = some s ∧ s ≠ "" ∧
          ∀ c ∈ BOOTSTRAPPERS, strLower c ≠ strLower (strStrip s)) ∨
        isDir = false ∨
        (colorArg = "" ∧ files.any isTTF = true))) ∧
    (mainExit colorArg bootArg isDir files envOf = 0 ↔
      ¬((colorArg ≠ "" ∧ hex_to_rgb colorArg = none) ∨
        (∃ s, bootArg = some s ∧ s ≠ "" ∧
          ∀ c ∈ BOOTSTRAPPERS, strLower c ≠ strLower (strStrip s)) ∨
        isDir = false ∨
        (colorArg = "" ∧ files.any isTTF = true))) := by
  have h1 := mainExit_one_iff colorArg bootArg isDir files envOf
  have h01 := mainExit_zero_or_one colorArg bootArg isDir files envOf
  refine ⟨h1, ?_, ?_⟩
  · intro h0 hD
    have := h1.mpr hD
    omega
  · intro hnD
    rcases h01 with h | h
    · exact h
    · exact absurd (h1.mp h) hnD

end ModGen
